import Mathlib

/-!
Verification of the tool-calling control loop of the snow-assistant repository.

The embedding follows `src/agents/workflow.py` (class `LocalGPUAgent`),
`src/tools/basic_tools.py` (the tool registry and `get_tool_by_name`), and the
connection gate of `src/models/local_llm.py`.  The language-model backend, the
HTTP bodies of the individual tools and the uuid generator are external
effects; they are modelled as an explicit environment (`Env`).
-/

/-- JSON values as produced by Python `json.loads`.  Numeric literals are kept
as their source lexemes (`num lexeme`): no claim depends on the numeric value
of a JSON number, and this avoids committing to a floating-point semantics. -/
inductive JsonValue where
  | null : JsonValue
  | bool (b : Bool) : JsonValue
  | num (lexeme : String) : JsonValue
  | str (s : String) : JsonValue
  | arr (elems : List JsonValue) : JsonValue
  | obj (fields : List (String × JsonValue)) : JsonValue

/-- JSON insignificant whitespace (space, tab, newline, carriage return). -/
def isJsonWs (c : Char) : Bool :=
  c == ' ' || c == '\t' || c == '\n' || c == '\r'

/-- Skip JSON whitespace. -/
def skipWs : List Char → List Char
  | [] => []
  | c :: cs => if isJsonWs c then skipWs cs else c :: cs

/-- Hex digit value, if any. -/
def hexVal (c : Char) : Option Nat :=
  if '0' ≤ c ∧ c ≤ '9' then some (c.toNat - '0'.toNat)
  else if 'a' ≤ c ∧ c ≤ 'f' then some (c.toNat - 'a'.toNat + 10)
  else if 'A' ≤ c ∧ c ≤ 'F' then some (c.toNat - 'A'.toNat + 10)
  else none

/-- Body of a JSON string literal, after the opening quote: collects characters
until the closing quote, decoding the JSON escapes.  `\uXXXX` is decoded to the
scalar value (surrogate-pair recombination is elided: no claim involves
non-BMP text).  Raw control characters are rejected, as in strict
`json.loads`. -/
def parseStringBody (acc : List Char) : List Char → Option (String × List Char)
  | [] => none
  | '"' :: rest => some (String.mk acc.reverse, rest)
  | '\\' :: rest =>
    match rest with
    | [] => none
    | e :: rest2 =>
      match e with
      | '"' => parseStringBody ('"' :: acc) rest2
      | '\\' => parseStringBody ('\\' :: acc) rest2
      | '/' => parseStringBody ('/' :: acc) rest2
      | 'b' => parseStringBody ('\x08' :: acc) rest2
      | 'f' => parseStringBody ('\x0c' :: acc) rest2
      | 'n' => parseStringBody ('\n' :: acc) rest2
      | 'r' => parseStringBody ('\r' :: acc) rest2
      | 't' => parseStringBody ('\t' :: acc) rest2
      | 'u' =>
        match rest2 with
        | h1 :: h2 :: h3 :: h4 :: rest3 =>
          match hexVal h1, hexVal h2, hexVal h3, hexVal h4 with
          | some a, some b, some c, some d =>
            parseStringBody (Char.ofNat (((a * 16 + b) * 16 + c) * 16 + d) :: acc) rest3
          | _, _, _, _ => none
        | _ => none
      | _ => none
  | c :: rest => if c.toNat < 32 then none else parseStringBody (c :: acc) rest

/-- Longest prefix of decimal digits. -/
def spanDigits : List Char → List Char × List Char
  | [] => ([], [])
  | c :: cs =>
    if c.isDigit then
      let (ds, rest) := spanDigits cs
      (c :: ds, rest)
    else ([], c :: cs)

/-- JSON number lexeme: `-? int frac? exp?` with the JSON grammar for each
part.  Returns the lexeme and the remaining input. -/
def parseNumberLexeme (cs : List Char) : Option (List Char × List Char) :=
  let (sign, cs1) :=
    match cs with
    | '-' :: rest => (['-'], rest)
    | _ => (([] : List Char), cs)
  match cs1 with
  | [] => none
  | c :: rest =>
    if c == '0' then
      let intPart := [c]
      parseFracExp sign intPart rest
    else if c.isDigit then
      let (ds, rest2) := spanDigits rest
      parseFracExp sign (c :: ds) rest2
    else none
where
  /-- Optional fraction and exponent after the integer part. -/
  parseFracExp (sign intPart : List Char) (cs : List Char) :
      Option (List Char × List Char) :=
    let (fracPart, cs2) :=
      match cs with
      | '.' :: rest =>
        match spanDigits rest with
        | ([], _) => (none, cs)
        | (ds, rest2) => (some ('.' :: ds), rest2)
      | _ => (none, cs)
    match fracPart, cs2 with
    | none, '.' :: _ => none
    | _, _ =>
      let (expPart, cs3) :=
        match cs2 with
        | e :: rest =>
          if e == 'e' || e == 'E' then
            let (esign, rest2) :=
              match rest with
              | s :: r2 => if s == '+' || s == '-' then ([s], r2) else (([] : List Char), rest)
              | [] => (([] : List Char), rest)
            match spanDigits rest2 with
            | ([], _) => (none, cs2)
            | (ds, rest3) => (some (e :: (esign ++ ds)), rest3)
          else (none, cs2)
        | [] => (none, cs2)
      match expPart, cs3 with
      | none, e :: _ =>
        if e == 'e' || e == 'E' then none
        else some (sign ++ intPart ++ (fracPart.getD []), cs3)
      | _, _ =>
        some (sign ++ intPart ++ (fracPart.getD []) ++ (expPart.getD []), cs3)

/-- CPython's default interpreter recursion limit (`sys.getrecursionlimit()`):
the C scanner of `json.loads` enters one recursive call per container, and
raises `RecursionError` when nesting exceeds the limit.  This exception is
not caught by the `except (json.JSONDecodeError, AttributeError)` handler of
`workflow.py` line 174, so it escapes `run()`.  (The model starts the count
at the scanner itself; the handful of interpreter frames already on the
stack in a real process only lowers the threshold.) -/
def pyRecursionLimit : Nat := 1000

/-- CPython's default integer-string conversion limit
(`sys.get_int_max_str_digits()`, Python >= 3.11): converting an integer
literal with more digits raises a plain `ValueError`, likewise uncaught at
`workflow.py` line 174. -/
def pyIntDigitLimit : Nat := 4300

/-- A number lexeme that `json` hands to `int()` (no fraction and no
exponent) and that exceeds the conversion limit. -/
def intLexemeOverLimit (lx : List Char) : Bool :=
  lx.all (fun c => c.isDigit || c == '-')
    && decide (pyIntDigitLimit < (lx.filter Char.isDigit).length)

/-- Result of one recursive-descent step of the `json.loads` model:
a value with the remaining input, a grammar error (`JSONDecodeError`), or an
exception the workflow does not catch (`RecursionError` on over-deep
nesting, `ValueError` on an over-long integer literal). -/
inductive PRes where
  | val (v : JsonValue) (rest : List Char) : PRes
  | err : PRes
  | uncaught : PRes

mutual

/-- One JSON value (fuel-indexed recursive descent); `depth` counts the
containers already entered.  Python's `json.loads` additionally accepts the
non-standard constants `NaN`, `Infinity` and `-Infinity` by default. -/
def parseValue : Nat → Nat → List Char → PRes
  | 0, _, _ => PRes.err
  | Nat.succ fuel, depth, cs =>
    match skipWs cs with
    | [] => PRes.err
    | '"' :: rest =>
      match parseStringBody [] rest with
      | some (s, r) => PRes.val (JsonValue.str s) r
      | none => PRes.err
    | '\x7b' :: rest =>
      if pyRecursionLimit ≤ depth then PRes.uncaught
      else
        match skipWs rest with
        | '\x7d' :: r => PRes.val (JsonValue.obj []) r
        | cs2 => parseMembers fuel (depth + 1) cs2 []
    | '[' :: rest =>
      if pyRecursionLimit ≤ depth then PRes.uncaught
      else
        match skipWs rest with
        | ']' :: r => PRes.val (JsonValue.arr []) r
        | cs2 => parseElems fuel (depth + 1) cs2 []
    | 't' :: 'r' :: 'u' :: 'e' :: rest => PRes.val (JsonValue.bool true) rest
    | 'f' :: 'a' :: 'l' :: 's' :: 'e' :: rest => PRes.val (JsonValue.bool false) rest
    | 'n' :: 'u' :: 'l' :: 'l' :: rest => PRes.val JsonValue.null rest
    | 'N' :: 'a' :: 'N' :: rest => PRes.val (JsonValue.num "NaN") rest
    | 'I' :: 'n' :: 'f' :: 'i' :: 'n' :: 'i' :: 't' :: 'y' :: rest =>
      PRes.val (JsonValue.num "Infinity") rest
    | '-' :: 'I' :: 'n' :: 'f' :: 'i' :: 'n' :: 'i' :: 't' :: 'y' :: rest =>
      PRes.val (JsonValue.num "-Infinity") rest
    | cs1 =>
      match parseNumberLexeme cs1 with
      | some (lx, r) =>
        if intLexemeOverLimit lx then PRes.uncaught
        else PRes.val (JsonValue.num (String.mk lx)) r
      | none => PRes.err

/-- Members of a JSON object, after the opening brace (and not the empty
object).  `acc` holds the members parsed so far, in order. -/
def parseMembers : Nat → Nat → List Char → List (String × JsonValue) → PRes
  | 0, _, _, _ => PRes.err
  | Nat.succ fuel, depth, cs, acc =>
    match skipWs cs with
    | '"' :: rest =>
      match parseStringBody [] rest with
      | none => PRes.err
      | some (key, r1) =>
        match skipWs r1 with
        | ':' :: r2 =>
          match parseValue fuel depth r2 with
          | PRes.val v r3 =>
            match skipWs r3 with
            | ',' :: r4 => parseMembers fuel depth r4 (acc ++ [(key, v)])
            | '\x7d' :: r4 => PRes.val (JsonValue.obj (acc ++ [(key, v)])) r4
            | _ => PRes.err
          | PRes.err => PRes.err
          | PRes.uncaught => PRes.uncaught
        | _ => PRes.err
    | _ => PRes.err

/-- Elements of a JSON array, after the opening bracket (and not the empty
array). -/
def parseElems : Nat → Nat → List Char → List JsonValue → PRes
  | 0, _, _, _ => PRes.err
  | Nat.succ fuel, depth, cs, acc =>
    match parseValue fuel depth cs with
    | PRes.val v r1 =>
      match skipWs r1 with
      | ',' :: r2 => parseElems fuel depth r2 (acc ++ [v])
      | ']' :: r2 => PRes.val (JsonValue.arr (acc ++ [v])) r2
      | _ => PRes.err
    | PRes.err => PRes.err
    | PRes.uncaught => PRes.uncaught

end

/-- How one call of Python `json.loads` (external standard library) ends:
a decoded value; a `JSONDecodeError` — which `workflow.py` line 174
catches; or an exception its handler does not catch (`RecursionError`,
`ValueError`), which escapes `run()`. -/
inductive DecodeOutcome where
  | ok (v : JsonValue) : DecodeOutcome
  | decodeError : DecodeOutcome
  | uncaught : DecodeOutcome

/-- Model of Python `json.loads`: parse one JSON document starting at
container depth 0 and require that only whitespace remains (else
`Extra data`, a `JSONDecodeError`). -/
def json_loads_outcome (s : String) : DecodeOutcome :=
  let cs := s.toList
  match parseValue (cs.length + 2) 0 cs with
  | PRes.val v rest =>
    if skipWs rest == [] then DecodeOutcome.ok v else DecodeOutcome.decodeError
  | PRes.err => DecodeOutcome.decodeError
  | PRes.uncaught => DecodeOutcome.uncaught

/-- The value view of `json.loads`, used on the non-raising paths: `none`
where the call does not produce a value. -/
def json_loads (s : String) : Option JsonValue :=
  match json_loads_outcome s with
  | DecodeOutcome.ok v => some v
  | _ => none

/-- Lookup in the field list of a decoded JSON object.  `json.loads` builds a
Python dict in which a duplicate key overwrites the earlier binding, so the
last binding wins. -/
def dictGet (fields : List (String × JsonValue)) (k : String) : Option JsonValue :=
  (fields.reverse.find? (fun p => p.1 == k)).map (fun p => p.2)

/-- `dict.get(k, d)`: the binding for `k`, or the default `d`. -/
def dictGetD (fields : List (String × JsonValue)) (k : String) (d : JsonValue) :
    JsonValue :=
  match dictGet fields k with
  | some v => v
  | none => d

/-- A JSON number lexeme denotes zero iff it has digits and every digit of
its mantissa (the part before any exponent marker) is `0`; the constant
lexemes `NaN` and `Infinity` are non-zero (Python treats them as truthy). -/
def numLexemeIsZero (lx : String) : Bool :=
  let mantissa := lx.toList.takeWhile (fun c => !(c == 'e' || c == 'E'))
  mantissa.any Char.isDigit && mantissa.all (fun c => !c.isDigit || c == '0')

/-- Python truthiness of a decoded JSON value (`None`, `False`, zero, and
empty containers are falsy). -/
def jsonTruthy : JsonValue → Bool
  | JsonValue.null => false
  | JsonValue.bool b => b
  | JsonValue.num lx => !(numLexemeIsZero lx)
  | JsonValue.str s => !(s == "")
  | JsonValue.arr elems => !elems.isEmpty
  | JsonValue.obj fields => !fields.isEmpty

/-- A registered tool (`langchain_core.tools.Tool` as used by
`src/tools/basic_tools.py`): a unique name and a description.  The `func`
member performs external HTTP work and is modelled by `Env.exec`. -/
structure Tool where
  name : String
  description : String

/-- The fixed tool registry `tools` of `src/tools/basic_tools.py`
(lines 1732-1775), in registration order. -/
def tools : List Tool :=
  [ { name := "search",
      description := "Search knowledge base for general information. REQUIRES parameter: \x27query\x27 (string) - the search query. Example: \x7b\x27query\x27: \x27powder skiing\x27\x7d" },
    { name := "nwac_avalanche_forecast",
      description := "Get current avalanche forecast from Northwest Avalanche Center (NWAC). Returns: danger ratings (upper/middle/lower elevations), Bottom Line summary, detailed forecast discussion, weather conditions, and backcountry safety information. OPTIONAL parameter: \x27zone\x27 (default: \x27stevens-pass\x27). Available zones: \x27stevens-pass\x27, \x27mt-baker\x27, \x27snoqualmie-pass\x27, \x27washington-pass\x27, \x27mt-rainier\x27, \x27white-pass\x27, \x27olympics\x27. Use \x7b\x7d for Stevens Pass default or \x7b\x27zone\x27: \x27mt-baker\x27\x7d for other areas." },
    { name := "noaa_area_forecast_discussion",
      description := "Get professional meteorologist analysis from NOAA Area Forecast Discussions (AFD) covering both sides of Cascades. Returns: synoptic pattern analysis, model discussions, forecaster confidence levels, system timing, and technical weather insights from OTX (Spokane/East Cascades) and SEW (Seattle/West Cascades) offices. Useful for understanding weather patterns, forecast uncertainty, and detailed meteorological reasoning. NO parameters needed - use empty input \x7b\x7d." },
    { name := "powder_poobah_forecast",
      description := "Get the latest Powder Poobah professional snow forecast for Pacific Northwest mountains including short-term forecast, highlights, and extended outlook. Expert analysis from a trusted Pacific Northwest snow forecaster. NO parameters needed - use empty input \x7b\x7d." },
    { name := "stevens_pass_comprehensive_weather",
      description := "Get comprehensive NOAA weather data for Stevens Pass (Tye Mill, 5180ft elevation). Returns: 14-period text forecast, hourly grid data with snowfall amounts/timing, temperature trends, wind speed/gusts, precipitation, visibility, humidity, and active weather alerts. Best for general weather overview without detailed analysis. NO parameters needed - use empty input \x7b\x7d." },
    { name := "stevens_pass_snow_analysis",
      description := "PREMIUM comprehensive analysis tool combining ALL sources: NOAA grid data, AFD meteorologist discussions, Powder Poobah expert forecast, NWAC avalanche info, and WSDOT road conditions. Returns: AI-synthesized analysis covering snowfall amounts/timing, snow quality assessment, powder day identification (9+ inches), timing windows, mountain conditions, road access, hazards, and winter sports bottom line. Use this when user asks for complete analysis or snow forecast assessment. Takes ~30 seconds. NO parameters needed - use empty input \x7b\x7d." },
    { name := "wsdot_pass_conditions",
      description := "Get REAL-TIME road conditions from Washington State DOT for mountain passes. Returns: pass open/closed status, eastbound/westbound restrictions (chains required, traction tires, etc.), current temperature/weather at pass elevation, road surface conditions, travel advisories, closures, delays, and expected changes. CRITICAL for determining if mountain is accessible. Use this when user asks about road conditions, driving, pass status, or \x27can I get there\x27. OPTIONAL parameter: \x27pass_name\x27 (default: \x27stevens\x27). Options: \x27stevens\x27, \x27snoqualmie\x27, \x27white\x27, \x27chinook\x27, \x27blewett\x27, \x27all\x27. Example: \x7b\x7d for Stevens Pass or \x7b\x27pass_name\x27: \x27snoqualmie\x27\x7d for Snoqualmie Pass." },
    { name := "stevens_pass_weather_plots",
      description := "Generate interactive weather charts for Stevens Pass (internal use - not directly callable by user). Used automatically when weather data is retrieved." } ]

/-- `get_tool_by_name` (`src/tools/basic_tools.py` lines 1782-1787): first
tool in the registry with the given name, else `None`. -/
def get_tool_by_name (name : String) : Option Tool :=
  tools.find? (fun t => t.name == name)

/-- `get_tool_by_name(action)` applied to a decoded JSON value, as in
`workflow.py` line 163 where `action` need not be a string: Python `==`
between `tool.name : str` and a non-string is `False`, so the lookup can only
succeed on a string action. -/
def get_tool_by_name_of_value (action : JsonValue) : Option Tool :=
  match action with
  | JsonValue.str s => get_tool_by_name s
  | _ => none

/-- The messages this workflow puts in `AgentState.messages`
(`langchain_core` `HumanMessage` / `AIMessage` / `ToolMessage`).  A
`ToolMessage` carries `tool_call_id` and an optional `name` — `langchain`'s
`BaseMessage` declares `name: Optional[str] = None`, so the attribute always
exists and defaults to `None`. -/
inductive Message where
  | human (content : String) : Message
  | ai (content : String) : Message
  | tool (content : String) (tool_call_id : Option String) (name : Option String) : Message

/-- The `content` attribute of a message. -/
def Message.content : Message → String
  | Message.human c => c
  | Message.ai c => c
  | Message.tool c _ _ => c

/-- `isinstance(msg, ToolMessage)`. -/
def Message.isToolMsg : Message → Bool
  | Message.tool _ _ _ => true
  | _ => false

/-- `AgentState` (`workflow.py` lines 16-21). -/
structure AgentState where
  messages : List Message
  current_tool : Option String
  tool_input : Option JsonValue
  tool_call_id : Option String

/-- Whitespace stripped by Python `str.strip()` (the ASCII set; exotic
unicode space characters are elided). -/
def isPyWs (c : Char) : Bool :=
  c == ' ' || c == '\t' || c == '\n' || c == '\r' || c == '\x0b' || c == '\x0c'

/-- Python `response.strip()`: drop leading and trailing whitespace. -/
def pyStrip (s : String) : String :=
  String.mk (((s.toList.dropWhile isPyWs).reverse.dropWhile isPyWs).reverse)

/-- Python `s.startswith('{')`. -/
def startsWithBrace (s : String) : Bool :=
  match s.toList with
  | c :: _ => c == '\x7b'
  | [] => false

/-- Python `s[:n]` on strings: the first `n` characters. -/
def strTake (s : String) (n : Nat) : String :=
  String.mk (s.toList.take n)

/-- Whether `pat` is a prefix of `hay` (character lists). -/
def isPrefixCh : List Char → List Char → Bool
  | [], _ => true
  | _ :: _, [] => false
  | p :: ps, h :: hs => p == h && isPrefixCh ps hs

/-- Whether `pat` occurs as a contiguous sublist of `hay`. -/
def hasInfixCh : List Char → List Char → Bool
  | [], pat => isPrefixCh pat []
  | h :: hs, pat => isPrefixCh pat (h :: hs) || hasInfixCh hs pat

/-- Python `pat in hay` on strings: substring test. -/
def strContains (hay pat : String) : Bool :=
  hasInfixCh hay.toList pat.toList

/-- `messages[-10:] if len(messages) > 10 else messages`
(`workflow.py` line 102): the most recent at most 10 turns. -/
def recentMessages (messages : List Message) : List Message :=
  if messages.length > 10 then messages.drop (messages.length - 10) else messages

/-- One turn's contribution to the conversation window (`workflow.py` lines
104-116): `none` means the turn is skipped.  An `AIMessage` is skipped when
its content contains a welcome-banner marker; a `ToolMessage` is rendered
with its name (Python renders the `None` attribute as the text `None`; the
`getattr` default `unknown_tool` is dead because the attribute always
exists) and with content over 1000 characters truncated. -/
def renderMessage : Message → Option String
  | Message.human c => some ("User: " ++ c)
  | Message.ai c =>
    if strContains c "Connected to" || strContains c "Tools Available" then none
    else some ("Assistant: " ++ c)
  | Message.tool c _ name =>
    let tool_name := match name with
      | some n => n
      | none => "None"
    let tool_content := if c.length > 1000 then strTake c 1000 ++ "...[truncated]" else c
    some ("[Tool Result from " ++ tool_name ++ "]: " ++ tool_content)

/-- The conversation window: the rendered recent turns (`workflow.py` lines
99-116). -/
def conversationList (messages : List Message) : List String :=
  (recentMessages messages).filterMap renderMessage

/-- `"\n\n".join(conversation) if conversation else "User: Hello"`
(`workflow.py` line 118). -/
def conversationText (messages : List Message) : String :=
  let conversation := conversationList messages
  if conversation.isEmpty then "User: Hello"
  else String.intercalate "\n\n" conversation

/-- `messages and isinstance(messages[-1], ToolMessage)`
(`workflow.py` line 121). -/
def lastIsToolMessage (messages : List Message) : Bool :=
  match messages.getLast? with
  | some m => m.isToolMsg
  | none => false

/-- `self._format_tools()` (`workflow.py` lines 308-313). -/
def format_tools : String :=
  String.intercalate "\n" (tools.map (fun t => "- " ++ t.name ++ ": " ++ t.description))

/-- The fixed instruction preamble of the system prompt (`workflow.py`
lines 65-95), with `format_tools` interpolated where the f-string places
`{tools_description}`. -/
def system_prompt : String :=
  "You are a helpful AI assistant with expertise in weather and mountain forecasting. You can access specialized tools for Stevens Pass weather analysis, or provide general information and conversation.\n\nYou have access to the following tools when needed:\n\n"
  ++ format_tools
  ++ "\n\nCRITICAL TOOL USAGE RULES:\n1. When calling a tool, respond with ONLY a valid JSON object in this exact format:\n   \x7b\"action\": \"tool_name\", \"input\": \x7b...parameters...\x7d\x7d\n   \n2. IMPORTANT: Read each tool description carefully!\n   - If description says \"REQUIRES parameter\" → include the parameter in input\n   - If description says \"NO parameters needed\" → use empty object: \"input\": \x7b\x7d\n   \n3. Tool calling examples:\n   \n   Tools WITH parameters (MUST include the parameter):\n   - search needs \x27query\x27: \x7b\"action\": \"search\", \"input\": \x7b\"query\": \"powder skiing\"\x7d\x7d\n   \n   Tools WITHOUT parameters (MUST use empty input \x7b\x7d):\n   - \x7b\"action\": \"nwac_avalanche_forecast\", \"input\": \x7b\x7d\x7d\n   - \x7b\"action\": \"noaa_area_forecast_discussion\", \"input\": \x7b\x7d\x7d\n   - \x7b\"action\": \"stevens_pass_comprehensive_weather\", \"input\": \x7b\x7d\x7d\n   - \x7b\"action\": \"stevens_pass_snow_analysis\", \"input\": \x7b\x7d\x7d\n   - \x7b\"action\": \"powder_poobah_forecast\", \"input\": \x7b\x7d\x7d\n\n4. For general questions or conversation, provide your answer directly without any JSON.\n\n5. When you receive tool results (marked as [Tool Result from tool_name]), synthesize the information and present it clearly to the user. DO NOT call the same tool again unless the user explicitly asks for updated information.\n\n6. Be helpful, conversational, and informative."

/-- The synthesis instruction appended after a fresh tool result
(`workflow.py` line 122). -/
def additional_instruction : String :=
  "\n\nThe tool has returned results above. Please synthesize this information and provide a clear, helpful response to the user. Present the key information in a well-formatted way."

/-- The prompt built by one reasoning pass (`workflow.py` lines 97-125). -/
def buildPrompt (messages : List Message) : String :=
  if lastIsToolMessage messages then
    system_prompt ++ "\n\n" ++ conversationText messages
      ++ additional_instruction ++ "\n\nAssistant:"
  else
    system_prompt ++ "\n\n" ++ conversationText messages ++ "\n\nAssistant:"

/-- `re.search(r'\{.*\}', s, re.DOTALL)` (`workflow.py` line 155): the
leftmost, greedy match — the substring from the first opening brace to the
last closing brace of the text, when the latter comes after the former. -/
def jsonMatch (s : String) : Option String :=
  let cs := s.toList
  match cs.findIdx? (fun c => c == '\x7b') with
  | none => none
  | some i =>
    match cs.reverse.findIdx? (fun c => c == '\x7d') with
    | none => none
    | some r =>
      let j := cs.length - 1 - r
      if i < j then some (String.mk ((cs.drop i).take (j + 1 - i))) else none

/-- Python truthiness of `tool_call.get("action")` (`None` when the key is
absent). -/
def actionTruthy : Option JsonValue → Bool
  | none => false
  | some v => jsonTruthy v

/-- Python `action != "response"`: equality with a non-string value is
`False`, so the inequality holds for every non-string action. -/
def actionNeResponse : Option JsonValue → Bool
  | some (JsonValue.str s) => !(s == "response")
  | _ => true

/-- The tool-call detection of `_agent_node` (`workflow.py` lines 142-175):
strip the response; if it starts with an opening brace, take the greedy
brace-delimited substring, decode it, and accept the payload as a tool call
exactly when it is a JSON object whose `action` is truthy, differs from the
sentinel `"response"`, and resolves in the registry.  Every failure (no
regex match, `JSONDecodeError`, `.get` on a non-dict raising
`AttributeError`, or a rejected action) leaves `current_tool` unset, so the
result is `none`.  On success the held input is `tool_call.get("input", {})`. -/
def classify (response : String) : Option (String × JsonValue) :=
  let response_stripped := pyStrip response
  if startsWithBrace response_stripped then
    match jsonMatch response_stripped with
    | none => none
    | some m =>
      match json_loads m with
      | none => none
      | some tool_call =>
        match tool_call with
        | JsonValue.obj fields =>
          let action := dictGet fields "action"
          if actionTruthy action && actionNeResponse action
              && (match action with
                  | some v => (get_tool_by_name_of_value v).isSome
                  | none => false) then
            match action with
            | some (JsonValue.str a) =>
              some (a, dictGetD fields "input" (JsonValue.obj []))
            | _ => none
          else none
        | _ => none
  else none

/-- The Response Interpreter's verdict on one model output. -/
inductive Decision where
  | toolInvocation (name : String) (input : JsonValue) : Decision
  | directAnswer (text : String) : Decision

/-- Spec-facing view of the interpreter: either a recognized tool invocation,
or a direct answer carrying the original, unmodified model output. -/
def interpret (response : String) : Decision :=
  match classify response with
  | some (a, inp) => Decision.toolInvocation a inp
  | none => Decision.directAnswer response

/-- Whether `_agent_node` raises on this model output: its `json.loads` call
(line 158) runs exactly when the stripped text starts with the opening brace
and the greedy regex matched, and the `except (json.JSONDecodeError,
AttributeError)` handler at line 174 does not catch `RecursionError` or
`ValueError` — that exception propagates through `graph.invoke` and out of
`run()`. -/
def interpretRaises (response : String) : Bool :=
  startsWithBrace (pyStrip response)
    && (match jsonMatch (pyStrip response) with
        | some m =>
          (match json_loads_outcome m with
           | DecodeOutcome.uncaught => true
           | _ => false)
        | none => false)

/-- How `_tool_use_node` passes the input to `tool.func` (`workflow.py`
lines 222-226): a dict is splatted as keyword arguments, anything else is
passed positionally. -/
inductive ToolArg where
  | kwargs (fields : List (String × JsonValue)) : ToolArg
  | positional (v : JsonValue) : ToolArg

/-- The environment abstracting the external effects: the connectivity
pre-flight result, the provider name, the behaviour of each registered
tool's `func` (success text or the `str(e)` of a raised exception), and the
uuid supply (`str(uuid.uuid4())`, indexed by how many uuids were drawn so
far). -/
structure Env where
  connected : Bool
  provider : String
  exec : String → ToolArg → Except String String
  uuid : Nat → String

/-- `_agent_node` (`workflow.py` lines 56-193), after the model has produced
`response` for the prompt `buildPrompt state.messages`: on a recognized tool
call, hold the invocation and a fresh uuid without appending the raw JSON to
the messages; otherwise append the response as an assistant turn.  `n`
counts the uuids drawn so far. -/
def agentNode (env : Env) (n : Nat) (state : AgentState) (response : String) :
    AgentState × Nat :=
  match classify response with
  | some (a, inp) =>
    ({ messages := state.messages,
       current_tool := some a,
       tool_input := some inp,
       tool_call_id := some (env.uuid n) }, n + 1)
  | none =>
    ({ messages := state.messages ++ [Message.ai response],
       current_tool := none,
       tool_input := none,
       tool_call_id := none }, n)

/-- Which branch of `_tool_use_node` produced the step (observability
instrumentation; the state component is exactly the source's). -/
inductive DispatchTag where
  | noTool : DispatchTag
  | notFound : DispatchTag
  | success : DispatchTag
  | execError : DispatchTag
deriving DecidableEq

/-- Result of one `_tool_use_node` execution: the new state, the uuid
counter, the branch taken, and the capability invocations performed. -/
structure ToolStep where
  state : AgentState
  counter : Nat
  tag : DispatchTag
  calls : List (String × ToolArg)

/-- `state["tool_input"] or {}` (`workflow.py` line 222): a falsy held input
(absent, `None`, empty, zero) is replaced by the empty dict. -/
def orEmptyDict : Option JsonValue → JsonValue
  | none => JsonValue.obj []
  | some v => if jsonTruthy v then v else JsonValue.obj []

/-- How the held input is passed to `tool.func` (`workflow.py` lines
222-226): a dict is splatted as keyword arguments, anything else is passed
positionally. -/
def argOfInput : JsonValue → ToolArg
  | JsonValue.obj fields => ToolArg.kwargs fields
  | v => ToolArg.positional v

/-- `_tool_use_node` (`workflow.py` lines 195-259).  With no pending tool the
state is passed through.  Otherwise the name is looked up again: a failed
lookup appends a `Tool '<name>' not found` `ToolMessage`; a successful lookup
invokes the capability with the held input (dict splatted as kwargs,
anything else positional) and appends either the stringified result (tagged
with the tool's name) or, when the capability raises, a
`Tool execution error: <e>` `ToolMessage`.  All branches clear the pending
fields. -/
def toolUseNode (env : Env) (n : Nat) (state : AgentState) : ToolStep :=
  match state.current_tool with
  | none =>
    { state := { messages := state.messages, current_tool := none,
                 tool_input := none, tool_call_id := none },
      counter := n, tag := DispatchTag.noTool, calls := [] }
  | some ct =>
    let tool_call_id := state.tool_call_id
    match get_tool_by_name ct with
    | none =>
      let error_msg := "Tool \x27" ++ ct ++ "\x27 not found"
      { state := { messages := state.messages
                     ++ [Message.tool error_msg tool_call_id none],
                   current_tool := none, tool_input := none, tool_call_id := none },
        counter := n, tag := DispatchTag.notFound, calls := [] }
    | some _ =>
      let tool_input := orEmptyDict state.tool_input
      let arg := argOfInput tool_input
      match env.exec ct arg with
      | Except.ok result_str =>
        { state := { messages := state.messages
                       ++ [Message.tool result_str tool_call_id (some ct)],
                     current_tool := none, tool_input := none, tool_call_id := none },
          counter := n, tag := DispatchTag.success, calls := [(ct, arg)] }
      | Except.error e =>
        let error_msg := "Tool execution error: " ++ e
        { state := { messages := state.messages
                       ++ [Message.tool error_msg tool_call_id none],
                     current_tool := none, tool_input := none, tool_call_id := none },
          counter := n, tag := DispatchTag.execError, calls := [(ct, arg)] }

/-- `_end_node` (`workflow.py` lines 261-282): passes the messages through
and clears the pending fields. -/
def endNode (state : AgentState) : AgentState :=
  { messages := state.messages, current_tool := none,
    tool_input := none, tool_call_id := none }

/-- `_should_continue` (`workflow.py` lines 284-306): `"continue"` when a
tool is pending or the last message is a tool result, else `"end"`. -/
def shouldContinue (state : AgentState) : String :=
  if state.current_tool.isSome then "continue"
  else if lastIsToolMessage state.messages then "continue"
  else "end"

/-- Observable trace of one graph invocation: the prompts sent to the model
gateway (one per reasoning pass), the capability invocations performed, and
the `_tool_use_node` branches taken. -/
structure Trace where
  prompts : List String
  dispatches : List (String × ToolArg)
  tags : List DispatchTag

/-- LangGraph's default `recursion_limit`: `graph.invoke` is called with no
config (`workflow.py` line 336), so the engine default of 25 super-steps
applies; in this linear graph every super-step executes exactly one node
(`agent`, `tool_use` or `end`). -/
def recursionLimit : Nat := 25

/-- How one graph invocation ends: the end node ran (the graph returns its
final state); the engine needed a node execution beyond the recursion limit
and raised `GraphRecursionError`, which escapes `run()`; or the scripted
model-output oracle ran out (a model artifact — the engine itself would have
queried the gateway again). -/
inductive LoopExit where
  | done (final : AgentState) : LoopExit
  | recursionError : LoopExit
  | oracleExhausted : LoopExit

/-- The compiled graph (`_build_graph`, `workflow.py` lines 33-54) under the
LangGraph engine: entry at `agent`, unconditional edge to `tool_use`, then
`_should_continue` routes back to `agent` on `"continue"` and to the `end`
node otherwise.  `steps` counts the node executions already performed; the
engine refuses to start a node execution past `recursionLimit` and raises
`GraphRecursionError` instead.  The model gateway is consumed as the oracle
list: each reasoning pass takes the next model output. -/
def runLoop (env : Env) : List String → Nat → Nat → AgentState → Trace × LoopExit
  | oracle, steps, n, state =>
    if recursionLimit < steps + 1 then (⟨[], [], []⟩, LoopExit.recursionError)
    else
      match oracle with
      | [] => (⟨[], [], []⟩, LoopExit.oracleExhausted)
      | response :: rest =>
        let prompt := buildPrompt state.messages
        let (s1, n1) := agentNode env n state response
        if recursionLimit < steps + 2 then
          (⟨[prompt], [], []⟩, LoopExit.recursionError)
        else
          let step := toolUseNode env n1 s1
          if shouldContinue step.state == "continue" then
            let (t, ex) := runLoop env rest (steps + 2) step.counter step.state
            (⟨prompt :: t.prompts, step.calls ++ t.dispatches, step.tag :: t.tags⟩, ex)
          else
            if recursionLimit < steps + 3 then
              (⟨[prompt], step.calls, [step.tag]⟩, LoopExit.recursionError)
            else
              (⟨[prompt], step.calls, [step.tag]⟩, LoopExit.done (endNode step.state))

/-- `"Connected to" not in c and "Tools Available" not in c`: an assistant
turn that is not a session welcome banner (`workflow.py` lines 344-345). -/
def aiNonWelcome : Message → Bool
  | Message.ai c => !(strContains c "Connected to") && !(strContains c "Tools Available")
  | _ => false

/-- Final-response extraction of `run` (`workflow.py` lines 338-361): the
last non-banner assistant turn, else the last tool turn, else the last
message's content, else `"No response generated"` — where Python also treats
an empty extracted string as missing. -/
def extractFinalResponse (messages : List Message) : String :=
  let a := match messages.reverse.find? aiNonWelcome with
    | some m => m.content
    | none => ""
  if a != "" then a
  else
    let t := match messages.reverse.find? Message.isToolMsg with
      | some m => m.content
      | none => ""
    if t != "" then t
    else
      let l := match messages.getLast? with
        | some m => m.content
        | none => ""
      if l != "" then l else "No response generated"

/-- Outcome of `run`: the returned text, the observable trace, and the final
graph state — `none` when the graph was never invoked, when the engine
raised `GraphRecursionError` (so `run` returns nothing), or when the oracle
ran out. -/
structure RunResult where
  response : String
  trace : Trace
  final : Option AgentState

/-- The provider-specific connectivity error text (`workflow.py` lines
320-327). -/
def providerErrorMessage (provider : String) : String :=
  if provider == "ollama" then
    "Error: Cannot connect to Ollama. Please start Ollama with: ollama serve"
  else if provider == "openai" then
    "Error: Cannot connect to OpenAI API. Please check your OPENAI_API_KEY in .env"
  else
    "Error: Cannot connect to LLM provider: " ++ provider

/-- `run` (`workflow.py` lines 315-364): pre-flight connectivity gate, then
the graph on the initial state holding only the user turn, then
final-response extraction. -/
def run (env : Env) (oracle : List String) (user_input : String) : RunResult :=
  if !env.connected then
    { response := providerErrorMessage env.provider,
      trace := ⟨[], [], []⟩, final := none }
  else
    let initial_state : AgentState :=
      { messages := [Message.human user_input],
        current_tool := none, tool_input := none, tool_call_id := none }
    let (t, ex) := runLoop env oracle 0 0 initial_state
    match ex with
    | LoopExit.done s =>
      { response := extractFinalResponse s.messages, trace := t, final := some s }
    | LoopExit.recursionError => { response := "", trace := t, final := none }
    | LoopExit.oracleExhausted => { response := "", trace := t, final := none }

/-- A concrete environment for the iteration-count scenarios: connected,
every capability call succeeds. -/
def demoEnv : Env :=
  { connected := true, provider := "ollama",
    exec := fun _ _ => Except.ok "ok",
    uuid := fun n => "uuid-" ++ toString n }

/-- A model output that is a recognized `search` tool call. -/
def tcDemo : String :=
  "\x7b\"action\": \"search\", \"input\": \x7b\"query\": \"x\"\x7d\x7d"

/-- A model output that is a plain direct answer. -/
def ansDemo : String := "The search results show x."

/-- A model output that is a valid payload with the `"response"` sentinel. -/
def respDemo : String := "\x7b\"action\": \"response\", \"text\": \"hi\"\x7d"

/-- One `\x7b"a":` layer of the deeply nested payload. -/
def objUnit : List Char := ['\x7b', '"', 'a', '"', ':']

/-- A model output whose containers nest beyond the interpreter recursion
limit: 1201 nested `\x7b"a":` layers.  It starts with the opening brace and
contains a closing brace, so `_agent_node` hands its greedy match to
`json.loads`, whose scanner raises `RecursionError` at the 1001st
container — before it ever reads the rest of the text. -/
def deepDemo : String :=
  String.mk ((List.replicate 1201 objUnit).flatten ++ ['\x7d'])

/-- A model output where the payload is preceded by prose (scenario B). -/
def proseDemo : String :=
  "According to the data, \x7b\"action\": \"search\", \"input\": \x7b\"query\": \"test\"\x7d\x7d"

/-- An environment whose capability calls all raise. -/
def errEnv : Env := { demoEnv with exec := fun _ _ => Except.error "boom" }

/-- An environment whose connectivity pre-flight fails. -/
def offEnv : Env := { demoEnv with connected := false }

/-- A state holding a pending tool name that is not registered. -/
def stBogus : AgentState :=
  { messages := [Message.human "hi"], current_tool := some "bogus_tool",
    tool_input := some (JsonValue.obj []), tool_call_id := some "id-1" }

/-- A state holding a pending invocation of the registered `search` tool. -/
def stSearch : AgentState :=
  { messages := [Message.human "hi"], current_tool := some "search",
    tool_input := some (JsonValue.obj [("query", JsonValue.str "x")]),
    tool_call_id := some "id-2" }

/-- A conversation whose last turn is a tool result. -/
def msgsToolLast : List Message :=
  [Message.human "hi", Message.tool "r" (some "id") (some "search")]

/-- A conversation whose last turn is an assistant answer. -/
def msgsAiLast : List Message := [Message.human "hi", Message.ai "hello"]

/-- A tool-result content of 1001 characters. -/
def longContent : String := String.mk (List.replicate 1001 'a')

/-- A welcome-banner content. -/
def bannerDemo : String := "Connected to Ollama (model: llama3)"

/-- An 11-turn conversation (the first turn falls outside the window). -/
def msgsEleven : List Message :=
  [Message.human "m0", Message.ai "m1", Message.human "m2", Message.ai "m3",
   Message.human "m4", Message.ai "m5", Message.human "m6", Message.ai "m7",
   Message.human "m8", Message.ai "m9", Message.human "m10"]

/-- Content matching a session welcome/banner marker (`workflow.py`
line 109, lines 344-345). -/
def isBannerContent (c : String) : Bool :=
  strContains c "Connected to" || strContains c "Tools Available"

/-- C1: a model output whose stripped text begins with the opening brace and
whose greedy first-brace-to-last-brace substring decodes to an object with a
string `action` X ≠ `"response"` that resolves in the registry is classified
as `ToolInvocation` with name X and the payload's `input`, the input
defaulting to the empty mapping when the `input` key is absent. -/
theorem c1_interpreter_tool_invocation (response m : String)
    (fields : List (String × JsonValue)) (a : String)
    (hstart : startsWithBrace (pyStrip response) = true)
    (hmatch : jsonMatch (pyStrip response) = some m)
    (hparse : json_loads m = some (JsonValue.obj fields))
    (haction : dictGet fields "action" = some (JsonValue.str a))
    (hne : a ≠ "response")
    (hreg : (get_tool_by_name a).isSome = true) :
    interpret response
      = Decision.toolInvocation a (dictGetD fields "input" (JsonValue.obj []))
    ∧ (dictGet fields "input" = none →
        interpret response = Decision.toolInvocation a (JsonValue.obj [])) := by
  have hae : a ≠ "" := by
    intro h
    rw [h, show get_tool_by_name "" = none from rfl] at hreg
    simp at hreg
  have hcl : classify response
      = some (a, dictGetD fields "input" (JsonValue.obj [])) := by
    unfold classify
    simp [hstart, hmatch, hparse, haction, actionTruthy, jsonTruthy,
      actionNeResponse, get_tool_by_name_of_value, hreg, hae, hne]
  refine ⟨by simp [interpret, hcl], fun h => ?_⟩
  simp [interpret, hcl, dictGetD, h]

/-- Witness for C1: the scenario-A tool call is recognized. -/
theorem c1_witness :
    interpret tcDemo
      = Decision.toolInvocation "search" (JsonValue.obj [("query", JsonValue.str "x")]) :=
  (c1_interpreter_tool_invocation tcDemo tcDemo
    [("action", JsonValue.str "search"), ("input", JsonValue.obj [("query", JsonValue.str "x")])]
    "search" rfl rfl rfl rfl (by decide) rfl).1

/-- C2: a model output that does not begin (after stripping) with the opening
brace is classified as a direct answer carrying the original, unmodified
text. -/
theorem c2_interpreter_prose (response : String)
    (h : startsWithBrace (pyStrip response) = false) :
    interpret response = Decision.directAnswer response := by
  unfold interpret classify
  simp [h]

/-- Witness for C2: scenario B, a payload preceded by prose, stays a direct
answer with the full original text. -/
theorem c2_witness : interpret proseDemo = Decision.directAnswer proseDemo :=
  c2_interpreter_prose proseDemo rfl

/-- When `json.loads` produces a value, its outcome is `ok` that value. -/
theorem json_loads_ok (m : String) (v : JsonValue)
    (h : json_loads m = some v) : json_loads_outcome m = DecodeOutcome.ok v := by
  unfold json_loads at h
  cases ho : json_loads_outcome m with
  | ok v2 => rw [ho] at h; simp at h; rw [h]
  | decodeError => rw [ho] at h; simp at h
  | uncaught => rw [ho] at h; simp at h


theorem dropWhile_cons_false {p : Char → Bool} {c : Char} {l : List Char}
    (h : p c = false) : List.dropWhile p (c :: l) = c :: l := by
  simp [List.dropWhile, h]

theorem deepDemo_data :
    deepDemo.toList = (List.replicate 1201 objUnit).flatten ++ ['\x7d'] := rfl

theorem deepDemo_head :
    deepDemo.toList
      = '\x7b' :: ('"' :: 'a' :: '"' :: ':'
          :: ((List.replicate 1200 objUnit).flatten ++ ['\x7d'])) := by
  rw [deepDemo_data, show (1201 : Nat) = 1200 + 1 by norm_num, List.replicate_succ,
    List.flatten_cons]
  simp only [objUnit, List.cons_append, List.append_assoc, List.nil_append]

theorem deepDemo_length : deepDemo.toList.length = 6006 := by
  rw [deepDemo_data]
  simp only [List.length_append, List.length_flatten, List.map_replicate,
    List.sum_replicate, objUnit, List.length_cons, List.length_nil, smul_eq_mul,
    List.length_singleton]

theorem skipWs_brace (l : List Char) : skipWs ('\x7b' :: l) = '\x7b' :: l := by
  rw [skipWs, show isJsonWs '\x7b' = false from rfl]
  simp

/-- Entering a container at or beyond the depth limit raises, whatever
follows. -/
theorem parseValue_unit_base (f1 d : Nat) (rest : List Char)
    (hd : pyRecursionLimit ≤ d) :
    parseValue (Nat.succ f1) d ('\x7b' :: rest) = PRes.uncaught := by
  show (if pyRecursionLimit ≤ d then PRes.uncaught
        else match skipWs rest with
          | '\x7d' :: r => PRes.val (JsonValue.obj []) r
          | cs2 => parseMembers f1 (d + 1) cs2 []) = PRes.uncaught
  rw [if_pos hd]

/-- An uncaught raise while parsing the member value propagates out of the
member list. -/
theorem parseMembers_key_a (f2 d : Nat) (tail : List Char)
    (h : parseValue f2 d tail = PRes.uncaught) :
    parseMembers (Nat.succ f2) d ('"' :: 'a' :: '"' :: ':' :: tail) []
      = PRes.uncaught := by
  show (match parseValue f2 d tail with
        | PRes.val v r3 =>
          (match skipWs r3 with
            | ',' :: r4 => parseMembers f2 d r4 [(String.mk ['a'], v)]
            | '\x7d' :: r4 => PRes.val (JsonValue.obj [(String.mk ['a'], v)]) r4
            | _ => PRes.err)
        | PRes.err => PRes.err
        | PRes.uncaught => PRes.uncaught) = PRes.uncaught
  rw [h]

/-- One `\x7b"a":` layer below the limit steps into its member value. -/
theorem parseValue_unit_succ (f2 d : Nat) (tail : List Char)
    (hdd : ¬ pyRecursionLimit ≤ d)
    (h : parseValue f2 (d + 1) tail = PRes.uncaught) :
    parseValue (Nat.succ (Nat.succ f2)) d
      ('\x7b' :: '"' :: 'a' :: '"' :: ':' :: tail) = PRes.uncaught := by
  show (if pyRecursionLimit ≤ d then PRes.uncaught
        else match skipWs ('"' :: 'a' :: '"' :: ':' :: tail) with
          | '\x7d' :: r => PRes.val (JsonValue.obj []) r
          | cs2 => parseMembers (Nat.succ f2) (d + 1) cs2 []) = PRes.uncaught
  rw [if_neg hdd]
  show parseMembers (Nat.succ f2) (d + 1) ('"' :: 'a' :: '"' :: ':' :: tail) []
      = PRes.uncaught
  exact parseMembers_key_a f2 (d + 1) tail h

/-- Parsing a run of `j + 1` nested `\x7b"a":` layers from container depth
`d` raises once the depth limit falls inside the run, for any suffix and
any sufficient fuel: the nesting is walked by induction, one layer at a
time. -/
theorem parseValue_deepNest (j : Nat) :
    ∀ (fuel d : Nat) (rest : List Char),
      2 * j + 2 ≤ fuel →
      pyRecursionLimit ≤ d + j →
      parseValue fuel d ((List.replicate (j + 1) objUnit).flatten ++ rest)
        = PRes.uncaught := by
  induction j with
  | zero =>
    intro fuel d rest hf hd
    obtain ⟨f1, rfl⟩ : ∃ f1, fuel = Nat.succ f1 := ⟨fuel - 1, by omega⟩
    rw [List.replicate_succ, List.flatten_cons]
    simp only [List.replicate_zero, List.flatten_nil, List.append_nil, objUnit,
      List.cons_append]
    exact parseValue_unit_base f1 d _ (by omega)
  | succ j ih =>
    intro fuel d rest hf hd
    obtain ⟨f2, rfl⟩ : ∃ f2, fuel = Nat.succ (Nat.succ f2) := ⟨fuel - 2, by omega⟩
    rw [List.replicate_succ, List.flatten_cons]
    simp only [objUnit, List.cons_append, List.append_assoc]
    by_cases hdd : pyRecursionLimit ≤ d
    · exact parseValue_unit_base (Nat.succ f2) d _ hdd
    · exact parseValue_unit_succ f2 d _ hdd (ih f2 (d + 1) rest (by omega) (by omega))

/-- Decoding the deeply nested demo payload raises an exception the
workflow does not catch. -/
theorem json_loads_outcome_deepDemo :
    json_loads_outcome deepDemo = DecodeOutcome.uncaught := by
  have hp := parseValue_deepNest 1200 (deepDemo.toList.length + 2) 0 ['\x7d']
    (by rw [deepDemo_length]; norm_num)
    (by norm_num [pyRecursionLimit])
  rw [show (1200 : Nat) + 1 = 1201 by norm_num, ← deepDemo_data] at hp
  simp only [json_loads_outcome, hp]

/-- The model output is stripped to itself: no surrounding whitespace. -/
theorem pyStrip_deepDemo : pyStrip deepDemo = deepDemo := by
  have h1 : List.dropWhile isPyWs deepDemo.toList = deepDemo.toList := by
    rw [deepDemo_head]
    exact dropWhile_cons_false (by decide)
  have hrev : deepDemo.toList.reverse
      = '\x7d' :: (List.replicate 1201 objUnit).flatten.reverse := by
    rw [deepDemo_data, List.reverse_append]
    simp only [List.reverse_cons, List.reverse_nil, List.nil_append,
      List.singleton_append]
  have h2 : List.dropWhile isPyWs deepDemo.toList.reverse
      = deepDemo.toList.reverse := by
    rw [hrev]
    exact dropWhile_cons_false (by decide)
  unfold pyStrip
  rw [h1, h2, List.reverse_reverse]
  rfl

/-- The greedy match of the deeply nested demo payload is the whole text:
its first character is the opening brace, its last a closing brace. -/
theorem jsonMatch_deepDemo : jsonMatch (pyStrip deepDemo) = some deepDemo := by
  rw [pyStrip_deepDemo]
  have hrev : deepDemo.toList.reverse
      = '\x7d' :: (List.replicate 1201 objUnit).flatten.reverse := by
    rw [deepDemo_data, List.reverse_append]
    simp only [List.reverse_cons, List.reverse_nil, List.nil_append,
      List.singleton_append]
  have hfi : deepDemo.toList.findIdx? (fun c => c == '\x7b') = some 0 := by
    rw [deepDemo_head, List.findIdx?_cons]
    simp
  have hfj : deepDemo.toList.reverse.findIdx? (fun c => c == '\x7d') = some 0 := by
    rw [hrev, List.findIdx?_cons]
    simp
  simp only [jsonMatch, hfi, hfj]
  have hlt : 0 < deepDemo.toList.length - 1 - 0 := by
    have := deepDemo_length
    omega
  rw [if_pos hlt]
  have htk : deepDemo.toList.length - 1 - 0 + 1 - 0 = deepDemo.toList.length := by
    have := deepDemo_length
    omega
  rw [List.drop_zero, htk, List.take_length]
  rfl

/-- `_agent_node` raises on the deeply nested demo payload. -/
theorem interpretRaises_deepDemo : interpretRaises deepDemo = true := by
  have hs : startsWithBrace (pyStrip deepDemo) = true := by
    rw [pyStrip_deepDemo]
    simp only [startsWithBrace, deepDemo_head]
    simp
  simp only [interpretRaises, hs, jsonMatch_deepDemo, json_loads_outcome_deepDemo,
    Bool.true_and]

/-- C3 counterexample: the claim says a decode failure never raises, but on
a payload whose containers nest beyond the interpreter recursion limit
`json.loads` raises `RecursionError`, which the
`except (json.JSONDecodeError, AttributeError)` handler does not catch — the
exception escapes `run()` instead of degrading to a direct answer. -/
theorem c3_counterexample :
    ¬ (∀ response : String,
        (∃ m, jsonMatch (pyStrip response) = some m
            ∧ ∀ v : JsonValue, json_loads_outcome m ≠ DecodeOutcome.ok v) →
        interpretRaises response = false
          ∧ interpret response = Decision.directAnswer response) := by
  intro h
  have hd := h deepDemo
    ⟨deepDemo, jsonMatch_deepDemo, fun v hv => by
      rw [json_loads_outcome_deepDemo] at hv
      exact DecodeOutcome.noConfusion hv⟩
  simp [interpretRaises_deepDemo] at hd

/-- C3 amended: in every fallback case — the payload's `action` is the
`"response"` sentinel, the `action` does not resolve to a registered
capability, no brace-delimited match exists, or decoding fails with a
`JSONDecodeError` (the exception class the handler catches; `RecursionError`
on over-deep nesting and `ValueError` on over-long integer literals are not
caught and escape `run()`) — the interpreter does not raise and yields a
direct answer carrying the original raw text. -/
theorem c3_interpreter_fallback (response : String)
    (h : (∃ m fields, jsonMatch (pyStrip response) = some m
            ∧ json_loads m = some (JsonValue.obj fields)
            ∧ dictGet fields "action" = some (JsonValue.str "response"))
       ∨ (∃ m fields action, jsonMatch (pyStrip response) = some m
            ∧ json_loads m = some (JsonValue.obj fields)
            ∧ dictGet fields "action" = some action
            ∧ get_tool_by_name_of_value action = none)
       ∨ jsonMatch (pyStrip response) = none
       ∨ (∃ m, jsonMatch (pyStrip response) = some m
            ∧ json_loads_outcome m = DecodeOutcome.decodeError)) :
    interpret response = Decision.directAnswer response
    ∧ interpretRaises response = false := by
  constructor
  · have hcl : classify response = none := by
      by_cases hs : startsWithBrace (pyStrip response)
      · rcases h with ⟨m, fields, hm, hp, ha⟩ | ⟨m, fields, action, hm, hp, ha, hl⟩
          | hm | ⟨m, hm, hp⟩
        · unfold classify
          simp [hs, hm, hp, ha, actionTruthy, actionNeResponse]
        · unfold classify
          simp [hs, hm, hp, ha, hl]
        · unfold classify
          simp [hs, hm]
        · have hpn : json_loads m = none := by simp [json_loads, hp]
          unfold classify
          simp [hs, hm, hpn]
      · unfold classify
        simp [hs]
    simp [interpret, hcl]
  · by_cases hs : startsWithBrace (pyStrip response)
    · rcases h with ⟨m, fields, hm, hp, ha⟩ | ⟨m, fields, action, hm, hp, ha, hl⟩
        | hm | ⟨m, hm, hp⟩
      · have hoc := json_loads_ok m _ hp
        simp [interpretRaises, hs, hm, hoc]
      · have hoc := json_loads_ok m _ hp
        simp [interpretRaises, hs, hm, hoc]
      · simp [interpretRaises, hs, hm]
      · simp [interpretRaises, hs, hm, hp]
    · simp [interpretRaises, hs]

/-- Witness for C3 amended: the `"response"` sentinel payload degrades to a
direct answer with the raw text, without raising. -/
theorem c3_witness :
    interpret respDemo = Decision.directAnswer respDemo
    ∧ interpretRaises respDemo = false :=
  c3_interpreter_fallback respDemo
    (Or.inl ⟨respDemo,
      [("action", JsonValue.str "response"), ("text", JsonValue.str "hi")],
      rfl, rfl, rfl⟩)

/-- The last turn of a conversation extended by one message is that
message. -/

theorem lastIsToolMessage_append (ms : List Message) (m : Message) :
    lastIsToolMessage (ms ++ [m]) = m.isToolMsg := by
  simp [lastIsToolMessage]

/-- C4: one `_tool_use_node` execution appends at most one turn, every turn
it appends is a `ToolMessage`, and it performs at most one capability
invocation — never a batch. -/
theorem c4_single_dispatch_per_visit (env : Env) (n : Nat) (s : AgentState) :
    ∃ appended,
      (toolUseNode env n s).state.messages = s.messages ++ appended
      ∧ appended.length ≤ 1
      ∧ (∀ m ∈ appended, m.isToolMsg = true)
      ∧ (toolUseNode env n s).calls.length ≤ 1 := by
  rcases hct : s.current_tool with _ | ct
  · exact ⟨[], by simp [toolUseNode, hct], by simp, by simp, by simp [toolUseNode, hct]⟩
  · rcases hl : get_tool_by_name ct with _ | t
    · refine ⟨[Message.tool ("Tool \x27" ++ ct ++ "\x27 not found") s.tool_call_id none],
        by simp [toolUseNode, hct, hl], by simp, ?_, by simp [toolUseNode, hct, hl]⟩
      intro m hm
      simp at hm
      subst hm
      rfl
    · rcases he : env.exec ct (argOfInput (orEmptyDict s.tool_input)) with e | r
      · refine ⟨[Message.tool ("Tool execution error: " ++ e) s.tool_call_id none],
          by simp [toolUseNode, hct, hl, he], by simp, ?_, by simp [toolUseNode, hct, hl, he]⟩
        intro m hm
        simp at hm
        subst hm
        rfl
      · refine ⟨[Message.tool r s.tool_call_id (some ct)],
          by simp [toolUseNode, hct, hl, he], by simp, ?_, by simp [toolUseNode, hct, hl, he]⟩
        intro m hm
        simp at hm
        subst hm
        rfl

/-- C5: both dispatch failure modes are absorbed: an unresolved pending name
appends a `Tool <name> not found` tool turn, a raising capability appends a
`Tool execution error: <e>` tool turn, and in both cases `_should_continue`
routes back to the reasoning node (the loop neither terminates nor lets the
exception escape). -/
theorem c5_failures_absorbed :
    (∀ (env : Env) (n : Nat) (s : AgentState) (ct : String),
        s.current_tool = some ct → get_tool_by_name ct = none →
        (toolUseNode env n s).state.messages
          = s.messages
            ++ [Message.tool ("Tool \x27" ++ ct ++ "\x27 not found") s.tool_call_id none]
        ∧ shouldContinue (toolUseNode env n s).state = "continue")
    ∧ (∀ (env : Env) (n : Nat) (s : AgentState) (ct : String) (e : String),
        s.current_tool = some ct → (get_tool_by_name ct).isSome = true →
        env.exec ct (argOfInput (orEmptyDict s.tool_input)) = Except.error e →
        (toolUseNode env n s).state.messages
          = s.messages
            ++ [Message.tool ("Tool execution error: " ++ e) s.tool_call_id none]
        ∧ shouldContinue (toolUseNode env n s).state = "continue") := by
  constructor
  · intro env n s ct hct hl
    constructor
    · simp [toolUseNode, hct, hl]
    · simp [toolUseNode, hct, hl, shouldContinue, lastIsToolMessage_append, Message.isToolMsg]
  · intro env n s ct e hct hl he
    rcases Option.isSome_iff_exists.mp hl with ⟨t, ht⟩
    constructor
    · simp [toolUseNode, hct, ht, he]
    · simp [toolUseNode, hct, ht, he, shouldContinue, lastIsToolMessage_append, Message.isToolMsg]

/-- Witness for C5: a missing tool and a raising tool, on concrete states. -/
theorem c5_witness :
    ((toolUseNode demoEnv 0 stBogus).state.messages
        = stBogus.messages
          ++ [Message.tool ("Tool \x27" ++ "bogus_tool" ++ "\x27 not found") (some "id-1") none]
      ∧ shouldContinue (toolUseNode demoEnv 0 stBogus).state = "continue")
    ∧ ((toolUseNode errEnv 0 stSearch).state.messages
        = stSearch.messages
          ++ [Message.tool ("Tool execution error: " ++ "boom") (some "id-2") none]
      ∧ shouldContinue (toolUseNode errEnv 0 stSearch).state = "continue") :=
  ⟨c5_failures_absorbed.1 demoEnv 0 stBogus "bogus_tool" rfl rfl,
   c5_failures_absorbed.2 errEnv 0 stSearch "search" "boom" rfl rfl rfl⟩

/-- C7: when the conversation ends in a tool result, the prompt is the
system preamble, the window, the explicit synthesis instruction and the
assistant cue — and a tool-result content over 1000 characters enters the
window truncated to its first 1000 characters plus the truncation marker;
when the last turn is not a tool result, no synthesis instruction is
appended. -/
theorem c7_synthesis_instruction :
    (∀ messages : List Message, lastIsToolMessage messages = true →
        buildPrompt messages
          = system_prompt ++ "\n\n" ++ conversationText messages
            ++ additional_instruction ++ "\n\nAssistant:")
    ∧ (∀ (c : String) (tid : Option String) (nm : String), c.length > 1000 →
        renderMessage (Message.tool c tid (some nm))
          = some ("[Tool Result from " ++ nm ++ "]: "
              ++ (strTake c 1000 ++ "...[truncated]")))
    ∧ (∀ messages : List Message, lastIsToolMessage messages = false →
        buildPrompt messages
          = system_prompt ++ "\n\n" ++ conversationText messages ++ "\n\nAssistant:") := by
  refine ⟨fun messages h => ?_, fun c tid nm h => ?_, fun messages h => ?_⟩
  · simp [buildPrompt, h]
  · simp [renderMessage, h]
  · simp [buildPrompt, h]

set_option maxRecDepth 10000 in
/-- Witness for C7: concrete conversations with and without a trailing tool
result, and a 1001-character tool content. -/
theorem c7_witness :
    buildPrompt msgsToolLast
      = system_prompt ++ "\n\n" ++ conversationText msgsToolLast
        ++ additional_instruction ++ "\n\nAssistant:"
    ∧ renderMessage (Message.tool longContent (some "id") (some "search"))
      = some ("[Tool Result from " ++ "search" ++ "]: "
          ++ (strTake longContent 1000 ++ "...[truncated]"))
    ∧ buildPrompt msgsAiLast
      = system_prompt ++ "\n\n" ++ conversationText msgsAiLast ++ "\n\nAssistant:" :=
  ⟨c7_synthesis_instruction.1 msgsToolLast rfl,
   c7_synthesis_instruction.2.1 longContent (some "id") "search"
     (by decide),
   c7_synthesis_instruction.2.2 msgsAiLast rfl⟩

/-- C8 counterexample: the claim says a banner-matching turn is excluded
from the window regardless of its role, but the banner filter only guards
assistant turns — a human turn with banner content stays in the window. -/
theorem c8_counterexample :
    ¬ (∀ (messages : List Message) (m : Message),
        m ∈ recentMessages messages →
        isBannerContent m.content = true → renderMessage m = none) := by
  intro h
  have hh := h [Message.human bannerDemo] (Message.human bannerDemo)
    (by simp [recentMessages]) (by decide)
  simp [renderMessage] at hh

/-- C8 amended: the window holds only the most recent 10 turns (a suffix,
silently dropping older ones with no summarization), and every assistant
turn whose content matches a banner marker is excluded from the window
regardless of its position. -/
theorem c8_window_amended :
    (∀ messages : List Message,
        (recentMessages messages).length ≤ 10
        ∧ recentMessages messages <:+ messages
        ∧ (messages.length > 10 →
            recentMessages messages = messages.drop (messages.length - 10))
        ∧ conversationList messages
            = (recentMessages messages).filterMap renderMessage)
    ∧ (∀ c : String, isBannerContent c = true → renderMessage (Message.ai c) = none) := by
  constructor
  · intro messages
    refine ⟨?_, ?_, fun h => by simp [recentMessages, h], rfl⟩
    · by_cases h : messages.length > 10
      · simp [recentMessages, h]
        omega
      · simp [recentMessages, h]
        omega
    · by_cases h : messages.length > 10
      · simp [recentMessages, h]
        exact List.drop_suffix _ _
      · simp [recentMessages, h]
  · intro c h
    simp [isBannerContent] at h
    rcases h with h | h <;> simp [renderMessage, h]

/-- Witness for C8 amended: an 11-turn conversation drops its oldest turn,
and a concrete banner assistant turn is excluded. -/
theorem c8_witness :
    recentMessages msgsEleven = msgsEleven.drop 1
    ∧ renderMessage (Message.ai bannerDemo) = none := by
  constructor
  · have h := (c8_window_amended.1 msgsEleven).2.2.1 (by decide)
    simpa using h
  · exact c8_window_amended.2 bannerDemo (by decide)

/-- C9: a failed connectivity pre-flight makes `run` return the
provider-specific error message with no prompt built, no model generation,
no dispatch and no conversation state — it never enters the reasoning
node. -/
theorem c9_preflight_gate :
    (∀ (env : Env) (oracle : List String) (user_input : String),
        env.connected = false →
        run env oracle user_input
          = { response := providerErrorMessage env.provider,
              trace := ⟨[], [], []⟩, final := none })
    ∧ providerErrorMessage "ollama"
        = "Error: Cannot connect to Ollama. Please start Ollama with: ollama serve"
    ∧ providerErrorMessage "openai"
        = "Error: Cannot connect to OpenAI API. Please check your OPENAI_API_KEY in .env" := by
  refine ⟨fun env oracle input h => ?_, rfl, rfl⟩
  simp [run, h]

/-- Witness for C9: a disconnected environment short-circuits `run`. -/
theorem c9_witness :
    run offEnv [ansDemo] "hi"
      = { response := providerErrorMessage offEnv.provider,
          trace := ⟨[], [], []⟩, final := none } :=
  c9_preflight_gate.1 offEnv [ansDemo] "hi" rfl

/-- On an unrecognized output the agent node appends the assistant turn and
clears the pending fields. -/
theorem agentNode_direct (env : Env) (n : Nat) (s : AgentState) (r : String)
    (h : classify r = none) :
    agentNode env n s r
      = ({ messages := s.messages ++ [Message.ai r], current_tool := none,
           tool_input := none, tool_call_id := none }, n) := by
  simp [agentNode, h]

/-- On a recognized tool call the agent node holds the invocation and a
fresh uuid and leaves the messages unchanged. -/
theorem agentNode_tool (env : Env) (n : Nat) (s : AgentState) (r : String)
    (a : String) (inp : JsonValue) (h : classify r = some (a, inp)) :
    agentNode env n s r
      = ({ messages := s.messages, current_tool := some a,
           tool_input := some inp, tool_call_id := some (env.uuid n) }, n + 1) := by
  simp [agentNode, h]

/-- A name accepted by the interpreter always resolves in the registry: the
acceptance condition itself requires a successful `get_tool_by_name`. -/
theorem classify_resolves (r a : String) (inp : JsonValue)
    (h : classify r = some (a, inp)) : (get_tool_by_name a).isSome = true := by
  unfold classify at h
  by_cases hs : startsWithBrace (pyStrip r) = true
  swap
  · simp only [Bool.not_eq_true] at hs
    simp [hs] at h
  · simp only [hs, if_true] at h
    rcases hm : jsonMatch (pyStrip r) with _ | m
    · simp [hm] at h
    · simp only [hm] at h
      rcases hp : json_loads m with _ | v
      · simp [hp] at h
      · simp only [hp] at h
        cases v with
        | obj fields =>
          rcases ha : dictGet fields "action" with _ | av
          · simp [ha, actionTruthy] at h
          · simp only [ha] at h
            split at h
            next hc =>
              cases av with
              | str a2 =>
                simp only [Option.some.injEq, Prod.mk.injEq] at h
                rcases h with ⟨h1, -⟩
                subst h1
                have h3 := (Bool.and_eq_true _ _).mp hc
                simpa [get_tool_by_name_of_value] using h3.2
              | null => simp at h
              | bool b => simp at h
              | num lx => simp at h
              | arr elems => simp at h
              | obj fs => simp at h
            next hc => simp at h
        | null => simp at h
        | bool b => simp at h
        | num lx => simp at h
        | str s2 => simp at h
        | arr elems => simp at h

/-- If every pending name of the state resolves, the tool-use node cannot
take its not-found branch. -/
theorem toolUseNode_tag_ne_notFound (env : Env) (n : Nat) (s : AgentState)
    (h : ∀ a, s.current_tool = some a → (get_tool_by_name a).isSome = true) :
    (toolUseNode env n s).tag ≠ DispatchTag.notFound := by
  rcases hct : s.current_tool with _ | ct
  · simp [toolUseNode, hct]
  · have h2 := h ct hct
    rcases hl : get_tool_by_name ct with _ | t
    · rw [hl] at h2
      simp at h2
    · rcases he : env.exec ct (argOfInput (orEmptyDict s.tool_input)) with e | r2 <;>
        simp [toolUseNode, hct, hl, he]

/-- Starting from any state and step count, the loop never takes the
not-found branch: the agent node only ever installs registry-validated
names. -/
theorem runLoop_no_notFound (env : Env) (oracle : List String) :
    ∀ (steps n : Nat) (s : AgentState),
      DispatchTag.notFound ∉ (runLoop env oracle steps n s).1.tags := by
  induction oracle with
  | nil =>
    intro steps n s
    by_cases hb : recursionLimit < steps + 1 <;> simp [runLoop, hb]
  | cons r rest ih =>
    intro steps n s
    have hinv : ∀ a, ((agentNode env n s r).1.current_tool = some a) →
        (get_tool_by_name a).isSome = true := by
      rcases hc : classify r with _ | ⟨a2, inp⟩
      · rw [agentNode_direct env n s r hc]
        intro a ha
        simp at ha
      · rw [agentNode_tool env n s r a2 inp hc]
        intro a ha
        simp at ha
        subst ha
        exact classify_resolves r a2 inp hc
    have htag := toolUseNode_tag_ne_notFound env (agentNode env n s r).2
      (agentNode env n s r).1 hinv
    by_cases hb1 : recursionLimit < steps + 1
    · simp [runLoop, hb1]
    · simp only [runLoop]
      rw [if_neg hb1]
      rcases hag : agentNode env n s r with ⟨s1, n1⟩
      rw [hag] at htag
      simp only at htag
      dsimp only
      by_cases hb2 : recursionLimit < steps + 2
      · rw [if_pos hb2]
        simp
      · rw [if_neg hb2]
        rcases hstep : toolUseNode env n1 s1 with ⟨st, cnt, tag, calls⟩
        rw [hstep] at htag
        simp only at htag
        by_cases hcont : (shouldContinue st == "continue") = true
        · rcases hrec : runLoop env rest (steps + 2) cnt st with ⟨t2, ex2⟩
          have ihr := ih (steps + 2) cnt st
          rw [hrec] at ihr
          simp only at ihr
          simp only [hcont, if_true, hrec]
          simp only [List.mem_cons, not_or]
          exact ⟨fun hh => htag hh.symm, ihr⟩
        · simp only [Bool.not_eq_true] at hcont
          simp only [hcont, Bool.false_eq_true, if_false]
          by_cases hb3 : recursionLimit < steps + 3
          · rw [if_pos hb3]
            simp only [List.mem_singleton]
            exact fun hh => htag hh.symm
          · rw [if_neg hb3]
            simp only [List.mem_singleton]
            exact fun hh => htag hh.symm

/-- C10: the interpreter accepts a name only because `get_tool_by_name`
resolved it, and since the registry is fixed the tool-use node's second
lookup always succeeds — over any run, the `Tool not found` branch is
unreachable, so every tool turn comes from a successful invocation or a
caught execution error. -/
theorem c10_not_found_unreachable :
    (∀ (r a : String) (inp : JsonValue),
        classify r = some (a, inp) → (get_tool_by_name a).isSome = true)
    ∧ (∀ (env : Env) (oracle : List String) (user_input : String),
        DispatchTag.notFound ∉ (run env oracle user_input).trace.tags) := by
  refine ⟨classify_resolves, fun env oracle input => ?_⟩
  by_cases h : env.connected = true
  · have hmain := runLoop_no_notFound env oracle 0 0
      { messages := [Message.human input], current_tool := none,
        tool_input := none, tool_call_id := none }
    simp only [run, h, Bool.not_true, Bool.false_eq_true, if_false]
    rcases hr : runLoop env oracle 0 0
        { messages := [Message.human input], current_tool := none,
          tool_input := none, tool_call_id := none } with ⟨t, ex⟩
    rw [hr] at hmain
    simp only at hmain
    rcases ex with f | _ | _ <;> simpa using hmain
  · simp only [Bool.not_eq_true] at h
    simp [run, h]

/-- Witness for C10: the scenario-A call resolves, and a concrete two-pass
run takes no not-found branch. -/
theorem c10_witness :
    (get_tool_by_name "search").isSome = true
    ∧ DispatchTag.notFound ∉ (run demoEnv [tcDemo, ansDemo] "hi").trace.tags :=
  ⟨c10_not_found_unreachable.1 tcDemo "search"
      (JsonValue.obj [("query", JsonValue.str "x")]) rfl,
   c10_not_found_unreachable.2 demoEnv [tcDemo, ansDemo] "hi"⟩

/-- The demo tool call is classified as a `search` invocation. -/
theorem classify_tcDemo :
    classify tcDemo = some ("search", JsonValue.obj [("query", JsonValue.str "x")]) := rfl

/-- The demo direct answer is not classified as a tool call. -/
theorem classify_ansDemo : classify ansDemo = none := rfl

/-- With no pending tool the tool-use node passes the messages through. -/
theorem toolUseNode_none (env : Env) (n : Nat) (s : AgentState)
    (hct : s.current_tool = none) :
    toolUseNode env n s
      = { state := { messages := s.messages, current_tool := none,
                     tool_input := none, tool_call_id := none },
          counter := n, tag := DispatchTag.noTool, calls := [] } := by
  simp [toolUseNode, hct]

/-- In the demo environment a pending `search` invocation dispatches
successfully and appends its result turn. -/
theorem toolUseNode_demo_search (n : Nat) (s : AgentState)
    (hct : s.current_tool = some "search") :
    toolUseNode demoEnv n s
      = { state := { messages := s.messages
                       ++ [Message.tool "ok" s.tool_call_id (some "search")],
                     current_tool := none, tool_input := none, tool_call_id := none },
          counter := n, tag := DispatchTag.success,
          calls := [("search", argOfInput (orEmptyDict s.tool_input))] } := by
  obtain ⟨t, ht⟩ := Option.isSome_iff_exists.mp
    (show (get_tool_by_name "search").isSome = true from rfl)
  simp [toolUseNode, hct, ht, demoEnv]

/-- One tool-use execution performs at most one capability invocation. -/
theorem toolUseNode_calls_le_one (env : Env) (n : Nat) (s : AgentState) :
    (toolUseNode env n s).calls.length ≤ 1 := by
  rcases hct : s.current_tool with _ | ct
  · simp [toolUseNode, hct]
  · rcases hl : get_tool_by_name ct with _ | t
    · simp [toolUseNode, hct, hl]
    · rcases he : env.exec ct (argOfInput (orEmptyDict s.tool_input)) with e | r <;>
        simp [toolUseNode, hct, hl, he]

/-- When the router chooses the end edge, the tool-use step performed no
invocation: every dispatching branch appends a tool turn, which routes back
to the agent. -/
theorem toolUseNode_end_calls (env : Env) (n : Nat) (s : AgentState)
    (h : (shouldContinue (toolUseNode env n s).state == "continue") = false) :
    (toolUseNode env n s).calls = [] := by
  rcases hct : s.current_tool with _ | ct
  · simp [toolUseNode, hct]
  · exfalso
    rcases hl : get_tool_by_name ct with _ | t
    · simp [toolUseNode, hct, hl, shouldContinue, lastIsToolMessage_append,
        Message.isToolMsg] at h
    · rcases he : env.exec ct (argOfInput (orEmptyDict s.tool_input)) with e | r <;>
        simp [toolUseNode, hct, hl, he, shouldContinue, lastIsToolMessage_append,
          Message.isToolMsg] at h

/-- A run that reaches the end node fits inside the recursion limit: each
dispatch cycle costs two node executions and the closing reasoning pass plus
end node cost three more. -/
theorem runLoop_done_bound (env : Env) (oracle : List String) :
    ∀ (steps n : Nat) (s : AgentState) (t : Trace) (f : AgentState),
      runLoop env oracle steps n s = (t, LoopExit.done f) →
      2 * t.dispatches.length + steps + 3 ≤ recursionLimit := by
  induction oracle with
  | nil =>
    intro steps n s t f h
    by_cases hb : recursionLimit < steps + 1 <;> simp [runLoop, hb] at h
  | cons r rest ih =>
    intro steps n s t f h
    by_cases hb1 : recursionLimit < steps + 1
    · simp [runLoop, hb1] at h
    · simp only [runLoop] at h
      rw [if_neg hb1] at h
      rcases hag : agentNode env n s r with ⟨s1, n1⟩
      rw [hag] at h
      dsimp only at h
      by_cases hb2 : recursionLimit < steps + 2
      · rw [if_pos hb2] at h
        simp at h
      · rw [if_neg hb2] at h
        rcases hstep : toolUseNode env n1 s1 with ⟨st, cnt, tag, calls⟩
        rw [hstep] at h
        dsimp only at h
        by_cases hcont : (shouldContinue st == "continue") = true
        · rw [if_pos hcont] at h
          rcases hrec : runLoop env rest (steps + 2) cnt st with ⟨t2, ex2⟩
          rw [hrec] at h
          dsimp only at h
          injection h with ht hex
          subst ht
          have hrb := ih (steps + 2) cnt st t2 f (by rw [hrec, hex])
          have hc1 : calls.length ≤ 1 := by
            have hco := toolUseNode_calls_le_one env n1 s1
            rw [hstep] at hco
            simpa using hco
          simp only [List.length_append]
          omega
        · simp only [Bool.not_eq_true] at hcont
          rw [if_neg (by simp [hcont])] at h
          by_cases hb3 : recursionLimit < steps + 3
          · rw [if_pos hb3] at h
            simp at h
          · rw [if_neg hb3] at h
            injection h with ht hex
            subst ht
            have hcalls : calls = [] := by
              have hec := toolUseNode_end_calls env n1 s1 (by rw [hstep]; exact hcont)
              rw [hstep] at hec
              simpa using hec
            simp only [hcalls, List.length_nil]
            omega

/-- A run whose graph invocation completes performs at most 11 capability
dispatches. -/
theorem run_done_dispatch_bound (env : Env) (oracle : List String) (input : String)
    (h : (run env oracle input).final.isSome = true) :
    (run env oracle input).trace.dispatches.length ≤ 11 := by
  by_cases hc : env.connected = true
  · simp only [run, hc, Bool.not_true, Bool.false_eq_true, if_false] at h ⊢
    rcases hr : runLoop env oracle 0 0
        { messages := [Message.human input], current_tool := none,
          tool_input := none, tool_call_id := none } with ⟨t, ex⟩
    dsimp only at h ⊢
    rcases ex with f | _ | _
    · have hb := runLoop_done_bound env oracle 0 0
        { messages := [Message.human input], current_tool := none,
          tool_input := none, tool_call_id := none } t f hr
      rw [show recursionLimit = 25 from rfl] at hb
      simpa using (by omega : t.dispatches.length ≤ 11)
    · rw [hr] at h
      simp at h
    · rw [hr] at h
      simp at h
  · simp only [Bool.not_eq_true] at hc
    simp [run, hc] at h

/-- C6 counterexample: the claim asserts that for every `n ≥ 1` some model
output sequence makes one run perform `n` dispatches before completing, but
`graph.invoke` runs under LangGraph's default recursion limit: no run that
completes performs 12 dispatches. -/
theorem c6_counterexample :
    ¬ (∀ n : Nat, 1 ≤ n →
        ∃ (env : Env) (oracle : List String) (input : String),
          (run env oracle input).trace.dispatches.length = n
          ∧ (run env oracle input).final.isSome = true) := by
  intro h
  obtain ⟨env, oracle, input, h1, h2⟩ := h 12 (by norm_num)
  have hb := run_done_dispatch_bound env oracle input h2
  omega

/-- Feeding the loop `k` tool-call outputs followed by one direct answer,
within the step budget, performs exactly `k` dispatches and reaches the end
node. -/
theorem runLoop_demo (k : Nat) :
    ∀ (steps n : Nat) (s : AgentState),
      steps + 2 * k + 3 ≤ recursionLimit →
      (runLoop demoEnv (List.replicate k tcDemo ++ [ansDemo]) steps n s).1.dispatches.length
        = k
      ∧ ∃ f, (runLoop demoEnv (List.replicate k tcDemo ++ [ansDemo]) steps n s).2
          = LoopExit.done f := by
  induction k with
  | zero =>
    intro steps n s hbudget
    have hb1 : ¬ (recursionLimit < steps + 1) := by omega
    have hb2 : ¬ (recursionLimit < steps + 2) := by omega
    have hb3 : ¬ (recursionLimit < steps + 3) := by omega
    have h1 := agentNode_direct demoEnv n s ansDemo classify_ansDemo
    simp only [List.replicate, List.nil_append, runLoop, h1]
    rw [if_neg hb1]
    try dsimp only
    rw [if_neg hb2]
    rw [toolUseNode_none demoEnv n _ rfl]
    dsimp only
    have hsc : shouldContinue
        { messages := s.messages ++ [Message.ai ansDemo], current_tool := none,
          tool_input := none, tool_call_id := none } = "end" := by
      simp [shouldContinue, lastIsToolMessage_append, Message.isToolMsg]
    rw [hsc]
    have hbeq : (("end" == "continue") = true) = False := by simp
    simp only [hbeq, if_false]
    rw [if_neg hb3]
    exact ⟨rfl, _, rfl⟩
  | succ k ih =>
    intro steps n s hbudget
    have hb1 : ¬ (recursionLimit < steps + 1) := by omega
    have hb2 : ¬ (recursionLimit < steps + 2) := by omega
    have h1 := agentNode_tool demoEnv n s tcDemo "search"
      (JsonValue.obj [("query", JsonValue.str "x")]) classify_tcDemo
    simp only [List.replicate_succ, List.cons_append, runLoop, h1]
    rw [if_neg hb1]
    try dsimp only
    rw [if_neg hb2]
    rw [toolUseNode_demo_search (n + 1) _ rfl]
    dsimp only
    have hsc : shouldContinue
        { messages := s.messages
            ++ [Message.tool "ok" (some (demoEnv.uuid n)) (some "search")],
          current_tool := none, tool_input := none, tool_call_id := none }
        = "continue" := by
      simp [shouldContinue, lastIsToolMessage_append, Message.isToolMsg]
    rw [hsc]
    have hbeq : (("continue" == "continue") = true) = True := by simp
    simp only [hbeq, if_true]
    rcases hrec : runLoop demoEnv (List.replicate k tcDemo ++ [ansDemo]) (steps + 2) (n + 1)
        { messages := s.messages
            ++ [Message.tool "ok" (some (demoEnv.uuid n)) (some "search")],
          current_tool := none, tool_input := none, tool_call_id := none }
      with ⟨t2, ex2⟩
    have ihr := ih (steps + 2) (n + 1)
      { messages := s.messages
          ++ [Message.tool "ok" (some (demoEnv.uuid n)) (some "search")],
        current_tool := none, tool_input := none, tool_call_id := none }
      (by omega)
    rw [hrec] at ihr
    simp only at ihr
    obtain ⟨hlen, f, hf⟩ := ihr
    constructor
    · simp [hlen]
    · exact ⟨f, by simp [hf]⟩

/-- C6 amended: the workflow code itself imposes no cap on the
reasoning/dispatching cycle, but `graph.invoke` (called with no config) runs
under the engine default recursion limit of 25 node executions; each cycle
costs two and the closing pass plus end node three, so a completing run
performs at most 11 dispatches — and every count from 1 to 11 is realized by
some model-output sequence. -/
theorem c6_recursion_capped :
    (∀ n : Nat, 1 ≤ n → n ≤ 11 →
        ∃ oracle : List String,
          (run demoEnv oracle "Will it snow?").trace.dispatches.length = n
          ∧ (run demoEnv oracle "Will it snow?").final.isSome = true)
    ∧ (∀ (env : Env) (oracle : List String) (input : String),
        (run env oracle input).final.isSome = true →
        (run env oracle input).trace.dispatches.length ≤ 11) := by
  constructor
  · intro n h1 h11
    refine ⟨List.replicate n tcDemo ++ [ansDemo], ?_⟩
    have h2 := runLoop_demo n 0 0
      { messages := [Message.human "Will it snow?"], current_tool := none,
        tool_input := none, tool_call_id := none }
      (by rw [show recursionLimit = 25 from rfl]; omega)
    have hc : ((!demoEnv.connected) = true) = False := by simp [demoEnv]
    simp only [run, hc, if_false]
    rcases hr : runLoop demoEnv (List.replicate n tcDemo ++ [ansDemo]) 0 0
        { messages := [Message.human "Will it snow?"], current_tool := none,
          tool_input := none, tool_call_id := none } with ⟨t, ex⟩
    rw [hr] at h2
    simp only at h2
    obtain ⟨hlen, f, hf⟩ := h2
    subst hf
    exact ⟨by simpa using hlen, by simp⟩
  · exact fun env oracle input h => run_done_dispatch_bound env oracle input h

/-- Witness for C6 amended: two dispatches are realized, and a concrete
completing run respects the bound. -/
theorem c6_witness :
    (∃ oracle : List String,
        (run demoEnv oracle "Will it snow?").trace.dispatches.length = 2
        ∧ (run demoEnv oracle "Will it snow?").final.isSome = true)
    ∧ (run demoEnv [ansDemo] "hi").trace.dispatches.length ≤ 11 :=
  ⟨c6_recursion_capped.1 2 (by norm_num) (by norm_num),
   c6_recursion_capped.2 demoEnv [ansDemo] "hi" rfl⟩
